import Mathlib

set_option maxRecDepth 2500

/-!
Verification of the Ivy repository: a Flask application (src/app.py) that ingests
three sensor values, asks a generative language model for a JSON interpretation
(src/AI/agent.py), and persists readings through SQLAlchemy (src/App/model.py).

Modelling conventions:
* Python numbers (int and float) are modelled exactly as rationals.
* Python exceptions are the inductive PyErr; a fallible Python expression is an
  Except PyErr value. Flask turns an uncaught exception into an HTTP 500 response.
* json.loads is modelled by an executable recursive-descent JSON parser producing
  the decoded value type Jval (string escapes: the common single-character
  escapes; the \uXXXX escape is not modelled).
* The external model call llm.invoke is a parameter of type
  String -> Except PyErr String: an .error outcome stands for any exception the
  call raises, an .ok outcome for the returned text.
* The SQLAlchemy store is an append-only list of Reading rows; the autoincrement
  primary key assigned to a new row in a store holding rows with ids 1..n is n+1.
  The Time column (a server-side default) is not modelled; no claim mentions it.
-/

/-- Python exceptions the embedded code can raise. The constructor `exception`
stands for an arbitrary exception raised by the external model invocation. -/
inductive PyErr where
  | keyError (key : String)
  | typeError
  | valueError
  | jsonDecodeError
  | attributeError
  | exception
  deriving DecidableEq

/-- Decoded JSON values, the result type of the json.loads model. Objects keep
their key/value pairs in source order. -/
inductive Jval where
  | jnull
  | jbool (b : Bool)
  | jnum (q : ℚ)
  | jstr (s : String)
  | jarr (elems : List Jval)
  | jobj (fields : List (String × Jval))

/-- The left-brace character, written via its code point. -/
def lbrace : Char := Char.ofNat 123

/-- The right-brace character, written via its code point. -/
def rbrace : Char := Char.ofNat 125

/-- JSON whitespace (also the whitespace removed by the str.strip model). -/
def isWs (c : Char) : Bool :=
  c == ' ' || c == '\t' || c == '\n' || c == '\r'

/-- Drop leading JSON whitespace. -/
def skipWs : List Char → List Char
  | [] => []
  | c :: cs => if isWs c then skipWs cs else c :: cs

/-- Consume a maximal run of decimal digits, extending accumulator `acc`;
returns the value, the number of digits consumed, and the rest. -/
def digitsAcc : ℕ → ℕ → List Char → ℕ × ℕ × List Char
  | acc, n, c :: cs =>
    if c.isDigit then digitsAcc (acc * 10 + (c.toNat - 48)) (n + 1) cs
    else (acc, n, c :: cs)
  | acc, n, [] => (acc, n, [])

/-- Parse a JSON number (optional minus, integer part, optional fraction with at
least one digit, optional exponent) into an exact rational. -/
def parseNumber (cs : List Char) : Option (ℚ × List Char) :=
  let sg := match cs with
    | '-' :: t => (true, t)
    | _ => (false, cs)
  match sg.2 with
  | [] => none
  | c :: _ =>
    if c.isDigit then
      let d1 := digitsAcc 0 0 sg.2
      let withFrac : Option (ℚ × List Char) :=
        match d1.2.2 with
        | '.' :: t =>
          match t with
          | d :: _ =>
            if d.isDigit then
              let d2 := digitsAcc 0 0 t
              some ((d1.1 : ℚ) + (d2.1 : ℚ) / ((10 : ℚ) ^ d2.2.1), d2.2.2)
            else none
          | [] => none
        | r => some ((d1.1 : ℚ), r)
      match withFrac with
      | none => none
      | some (q0, cs3) =>
        let withExp : Option (ℚ × List Char) :=
          match cs3 with
          | e :: t =>
            if e == 'e' || e == 'E' then
              let es := match t with
                | '+' :: u => (false, u)
                | '-' :: u => (true, u)
                | _ => (false, t)
              match es.2 with
              | d2 :: _ =>
                if d2.isDigit then
                  let d3 := digitsAcc 0 0 es.2
                  some (if es.1 then q0 / ((10 : ℚ) ^ d3.1) else q0 * ((10 : ℚ) ^ d3.1), d3.2.2)
                else none
              | [] => none
            else some (q0, cs3)
          | [] => some (q0, cs3)
        match withExp with
        | none => none
        | some (q1, cs5) => some ((if sg.1 then -q1 else q1), cs5)
    else none

/-- Decode a single-character JSON string escape. -/
def decodeEsc (e : Char) : Option Char :=
  if e == '"' then some '"'
  else if e == '\\' then some '\\'
  else if e == '/' then some '/'
  else if e == 'n' then some '\n'
  else if e == 't' then some '\t'
  else if e == 'r' then some '\r'
  else if e == 'b' then some (Char.ofNat 8)
  else if e == 'f' then some (Char.ofNat 12)
  else none

/-- Parse the body of a JSON string (the opening quote already consumed) up to
and including the closing quote. -/
def parseStringBody : List Char → Option (String × List Char)
  | [] => none
  | '"' :: r => some ("", r)
  | '\\' :: r =>
    match r with
    | [] => none
    | e :: r2 =>
      match decodeEsc e with
      | none => none
      | some d =>
        match parseStringBody r2 with
        | some (s, rest) => some (⟨d :: s.data⟩, rest)
        | none => none
  | c :: r =>
    match parseStringBody r with
    | some (s, rest) => some (⟨c :: s.data⟩, rest)
    | none => none

mutual

/-- Parse one JSON value. The fuel argument strictly decreases on every
recursive call; json_loads supplies enough fuel for its whole input. -/
def parseVal : ℕ → List Char → Option (Jval × List Char)
  | 0, _ => none
  | fuel + 1, cs =>
    match skipWs cs with
    | [] => none
    | 't' :: 'r' :: 'u' :: 'e' :: r => some (.jbool true, r)
    | 'f' :: 'a' :: 'l' :: 's' :: 'e' :: r => some (.jbool false, r)
    | 'n' :: 'u' :: 'l' :: 'l' :: r => some (.jnull, r)
    | '"' :: r =>
      match parseStringBody r with
      | some (s, r2) => some (.jstr s, r2)
      | none => none
    | '[' :: r =>
      match parseArrItems fuel true r with
      | some (xs, r2) => some (.jarr xs, r2)
      | none => none
    | c :: r =>
      if c == lbrace then
        match parseObjItems fuel true r with
        | some (fs, r2) => some (.jobj fs, r2)
        | none => none
      else if c == '-' || c.isDigit then
        match parseNumber (c :: r) with
        | some (q, r2) => some (.jnum q, r2)
        | none => none
      else none

/-- Parse the items of a JSON array after the opening bracket; `first` is true
before the first item, so that only an empty array may close immediately. -/
def parseArrItems : ℕ → Bool → List Char → Option (List Jval × List Char)
  | 0, _, _ => none
  | fuel + 1, first, cs =>
    match skipWs cs with
    | ']' :: r => if first then some ([], r) else none
    | cs1 =>
      match parseVal fuel cs1 with
      | none => none
      | some (v, r2) =>
        match skipWs r2 with
        | ',' :: r3 =>
          match parseArrItems fuel false r3 with
          | some (vs, r4) => some (v :: vs, r4)
          | none => none
        | ']' :: r3 => some ([v], r3)
        | _ => none

/-- Parse the members of a JSON object after the opening brace; `first` is true
before the first member, so that only an empty object may close immediately. -/
def parseObjItems : ℕ → Bool → List Char → Option (List (String × Jval) × List Char)
  | 0, _, _ => none
  | fuel + 1, first, cs =>
    match skipWs cs with
    | '"' :: r =>
      match parseStringBody r with
      | none => none
      | some (k, r2) =>
        match skipWs r2 with
        | ':' :: r3 =>
          match parseVal fuel r3 with
          | none => none
          | some (v, r4) =>
            match skipWs r4 with
            | ',' :: r5 =>
              match parseObjItems fuel false r5 with
              | some (fs, r6) => some ((k, v) :: fs, r6)
              | none => none
            | c :: r5 => if c == rbrace then some ([(k, v)], r5) else none
            | [] => none
        | _ => none
    | c :: r => if c == rbrace && first then some ([], r) else none
    | [] => none

end

/-- Model of Python json.loads: parse one JSON value, allowing surrounding
whitespace and requiring the whole input to be consumed; any failure is a
JSONDecodeError. -/
def json_loads (s : String) : Except PyErr Jval :=
  match parseVal (2 * s.data.length + 2) s.data with
  | some (v, rest) =>
    if skipWs rest = [] then .ok v else .error .jsonDecodeError
  | none => .error .jsonDecodeError

/-- Floor of a rational, computed from its reduced numerator and denominator
(integer division on ℤ rounds toward negative infinity for a positive divisor,
so this is the floor). -/
def iFloor (q : ℚ) : ℤ := q.num / (q.den : ℤ)

/-- Round to the nearest integer with ties to the even integer: the rounding
used by Python round(). -/
def rndHalfEven (q : ℚ) : ℤ :=
  if q - (iFloor q : ℚ) < 1 / 2 then iFloor q
  else if 1 / 2 < q - (iFloor q : ℚ) then iFloor q + 1
  else if iFloor q % 2 = 0 then iFloor q else iFloor q + 1

/-- Python round(x, 2) on an exact rational. -/
def pyRound2 (q : ℚ) : ℚ := (rndHalfEven (q * 100) : ℚ) / 100

/-- Python int() applied to a number: truncation toward zero. -/
def pyTrunc (q : ℚ) : ℤ := if 0 ≤ q then iFloor q else -iFloor (-q)

/-- Python str.strip(): remove leading and trailing whitespace. -/
def pyStrip (s : String) : String :=
  ⟨((s.data.dropWhile (fun c => isWs c)).reverse.dropWhile (fun c => isWs c)).reverse⟩

/-- Model of Python float() on a string: optional sign, digits with an optional
fractional part (either side of the dot may be empty but not both), optional
exponent, surrounding whitespace ignored; none models the ValueError for
anything else. The special forms inf and nan and digit underscores are not
modelled. -/
def pyParseFloatStr (s : String) : Option ℚ :=
  let cs := ((s.data.dropWhile (fun c => isWs c)).reverse.dropWhile (fun c => isWs c)).reverse
  let sg := match cs with
    | '-' :: t => (true, t)
    | '+' :: t => (false, t)
    | _ => (false, cs)
  let d1 := digitsAcc 0 0 sg.2
  let core : Option (ℚ × List Char) :=
    match d1.2.2 with
    | '.' :: t =>
      let d2 := digitsAcc 0 0 t
      if d1.2.1 + d2.2.1 = 0 then none
      else some ((d1.1 : ℚ) + (d2.1 : ℚ) / ((10 : ℚ) ^ d2.2.1), d2.2.2)
    | r =>
      if d1.2.1 = 0 then none
      else some ((d1.1 : ℚ), r)
  match core with
  | none => none
  | some (q0, rest) =>
    match rest with
    | [] => some (if sg.1 then -q0 else q0)
    | e :: t =>
      if e == 'e' || e == 'E' then
        let es := match t with
          | '+' :: u => (false, u)
          | '-' :: u => (true, u)
          | _ => (false, t)
        let d3 := digitsAcc 0 0 es.2
        if d3.2.1 = 0 ∨ d3.2.2 ≠ [] then none
        else
          let q1 := if es.1 then q0 / ((10 : ℚ) ^ d3.1) else q0 * ((10 : ℚ) ^ d3.1)
          some (if sg.1 then -q1 else q1)
      else none

/-- Model of Python int() on a string: optional sign and decimal digits only,
surrounding whitespace ignored; none models the ValueError. -/
def pyParseIntStr (s : String) : Option ℤ :=
  let cs := ((s.data.dropWhile (fun c => isWs c)).reverse.dropWhile (fun c => isWs c)).reverse
  let sg := match cs with
    | '-' :: t => (true, t)
    | '+' :: t => (false, t)
    | _ => (false, cs)
  if sg.2 ≠ [] ∧ sg.2.all Char.isDigit then
    some (if sg.1 then -((digitsAcc 0 0 sg.2).1 : ℤ) else ((digitsAcc 0 0 sg.2).1 : ℤ))
  else none

/-- Python float(x) on a decoded JSON value. Booleans are numeric in Python
(float(True) = 1.0); numeric strings convert; everything else raises. -/
def pyFloat : Jval → Except PyErr ℚ
  | .jnum q => .ok q
  | .jbool b => .ok (if b then 1 else 0)
  | .jstr s =>
    match pyParseFloatStr s with
    | some q => .ok q
    | none => .error .valueError
  | _ => .error .typeError

/-- Python int(x) on a decoded JSON value: numbers truncate toward zero,
booleans count as 0 or 1, strings must be integer literals. -/
def pyInt : Jval → Except PyErr ℤ
  | .jnum q => .ok (pyTrunc q)
  | .jbool b => .ok (if b then 1 else 0)
  | .jstr s =>
    match pyParseIntStr s with
    | some n => .ok n
    | none => .error .valueError
  | _ => .error .typeError

/-- x.strip() on a decoded JSON value: only strings have a strip method; on any
other value attribute access raises AttributeError. -/
def jvalStrip : Jval → Except PyErr String
  | .jstr s => .ok (pyStrip s)
  | _ => .error .attributeError

/-- v[k]: Python subscripting of a decoded JSON value by a string key. On a dict
it is a key lookup (KeyError when the key is absent; with duplicate JSON keys
the last occurrence wins, as in the dict json.loads builds); subscripting any
other value by a string raises TypeError. -/
def jsonSubscript (v : Jval) (k : String) : Except PyErr Jval :=
  match v with
  | .jobj fields =>
    match fields.reverse.lookup k with
    | some x => .ok x
    | none => .error (.keyError k)
  | _ => .error .typeError
/-- Literal chunk seg0a of PROMPT_TEMPLATE (src/AI/agent.py), in source order. -/
def seg0a : String :=
  "\n    You are an advanced environmental intelligence agent: an expert storyteller and analyst who\n    turns raw sensor inputs into a short, vivid, and useful human-friendly micro-report.\n\n    INPUTS\n    -------\n    Temperature (\u00C2\u00B0C): "

/-- Literal chunk seg1 of PROMPT_TEMPLATE (src/AI/agent.py), in source order. -/
def seg1 : String :=
  "\n    Humidity (%): "

/-- Literal chunk seg2 of PROMPT_TEMPLATE (src/AI/agent.py), in source order. -/
def seg2 : String :=
  "\n    Distance/Proxy (meters): "

/-- Literal chunk seg3a of PROMPT_TEMPLATE (src/AI/agent.py), in source order. -/
def seg3a : String :=
  "\n\n    INSTRUCTIONS TO THE AGENT\n    -------------------------\n        1. Perform your internal reasoning (do not output any chain-of-thought or stepwise reasoning).\n        2. Produce a concise, high-creativity textual micro-report in natural language (no more than 2(if possible, just a single) short sentences).\n            - The text should avoid formulas and long technical paragraphs.\n          "

/-- Literal chunk seg3b of PROMPT_TEMPLATE (src/AI/agent.py), in source order. -/
def seg3b : String :=
  "  - It should sound fresh and human (a little poetic allowed), and you may include 1-2 emojis.\n        3. Then provide one short, actionable recommendation.\n        4. At the end provide a numeric confidence score (0-100) representing how certain you are about the interpretation.\n        5. **Output MUST be valid JSON only** with exactly these keys:\n            - \"text\": string (the creative micro"

/-- Literal chunk seg3c of PROMPT_TEMPLATE (src/AI/agent.py), in source order. -/
def seg3c : String :=
  "-report)\n            - \"recommendation\": string (short actionable sentence)\n            - \"confidence\": integer (0-100)\n        6. Do NOT include any extra commentary, delimiters, or markdown \u00E2\u20AC\u201D only the JSON.\n\n    CONTEXT / TONE\n    --------------\n    - Make the report vivid, helpful, and professional.\n    - Keep length short: aim for a total of around 1-3 sentences in \"text\".\n    - Use emojis s"

/-- Literal chunk seg3d of PROMPT_TEMPLATE (src/AI/agent.py), in source order. -/
def seg3d : String :=
  "paringly to convey tone (e.g., \u00F0\u0178\u0152\u00A1\u00EF\u00B8, \u00F0\u0178\u2019\u00A7, \u00F0\u0178\u00A7\u00AD, \u00E2\u0161\u00A0\u00EF\u00B8).\n\n    EXAMPLE (not actual output; for style only and format)\n    "

/-- Literal chunk exOpen of PROMPT_TEMPLATE (src/AI/agent.py), in source order. -/
def exOpen : String :=
  "\x7b\"text\":"

/-- Literal chunk exSfx of PROMPT_TEMPLATE (src/AI/agent.py), in source order. -/
def exSfx : String :=
  " \"Warm breeze rolling in, humidity low enough for crisp air \u00E2\u20AC\u201D sensors show a mild thermal spike. \u00F0\u0178\u0152\u00A1\u00EF\u00B8\", \"recommendation\": \"If outdoors, hydrate and avoid direct sun for 30 minutes.\", \"confidence\": 86"

/-- Literal chunk exTail of PROMPT_TEMPLATE (src/AI/agent.py), in source order. -/
def exTail : String :=
  "\x7d\n    \x7b\"text\": \"The air feels heavy with warmth and dampness, a humid cloak settling around everything \u00F0\u0178\u0152\u00A1\u00EF\u00B8\u00F0\u0178\u2019\u00A7\", \"recommendation\": \"Keep hydrated and avoid extended outdoor activity in direct sunlight. \", \"confidence\":\"90\"\x7d\n\n    Now produce JSON for the given inputs.\n"

/-- Length of a list plus one, built lazily one successor at a time; used as
parsing fuel so that consuming it never needs the whole number at once. -/
def lenSucc : List Char → ℕ
  | [] => 1
  | _ :: cs => (lenSucc cs).succ

/-- Scan a replacement-field name after the opening brace: the name runs to the
first exclamation mark, colon or closing brace; returns the name, whether a
conversion/format-spec suffix follows, and the rest. A brace inside the field
name is an error, as in string.Formatter. -/
def scanName : List Char → Option (List Char × Bool × List Char)
  | [] => none
  | c :: cs =>
    if c == rbrace then some ([], false, cs)
    else if c == ':' || c == '!' then some ([], true, cs)
    else if c == lbrace then none
    else
      match scanName cs with
      | some (nm, b, rest) => some (c :: nm, b, rest)
      | none => none

/-- Scan the remainder of a replacement field after its name: everything up to
the brace closing the field, tracking brace nesting inside the format spec as
string.Formatter does. Returns the raw suffix and the input after the closing
brace. -/
def scanSuffix : ℕ → List Char → Option (List Char × List Char)
  | _, [] => none
  | depth, c :: cs =>
    if c == rbrace then
      if depth == 0 then some ([], cs)
      else
        match scanSuffix (depth - 1) cs with
        | some (sfx, rest) => some (c :: sfx, rest)
        | none => none
    else if c == lbrace then
      match scanSuffix (depth + 1) cs with
      | some (sfx, rest) => some (c :: sfx, rest)
      | none => none
    else
      match scanSuffix depth cs with
      | some (sfx, rest) => some (c :: sfx, rest)
      | none => none

/-- The streaming formatting loop of string.Formatter.vformat over a keyword
environment: literal text is copied (a doubled brace denoting a literal brace,
a single closing brace alone an error), and each replacement field is parsed —
name, then any conversion/format-spec suffix up to the matching brace — and
then looked up; a field name the environment does not supply raises KeyError
with that name. The template's resolvable fields carry an empty suffix, so
conversion and format-spec application (which would follow a successful
lookup) never arise and are not modelled. -/
def fmtScan (env : String → Option String) : ℕ → String → List Char → Except PyErr String
  | 0, _, _ => .error .valueError
  | _ + 1, acc, [] => .ok acc
  | fuel + 1, acc, c :: cs =>
    if c == lbrace then
      match cs with
      | [] => .error .valueError
      | d :: cs2 =>
        if d == lbrace then fmtScan env fuel (acc.push c) cs2
        else
          match scanName cs with
          | none => .error .valueError
          | some (nm, hasSfx, rest1) =>
            if hasSfx then
              match scanSuffix 0 rest1 with
              | none => .error .valueError
              | some (_sfx, rest2) =>
                match env ⟨nm⟩ with
                | none => .error (.keyError ⟨nm⟩)
                | some v => fmtScan env fuel (acc ++ v) rest2
            else
              match env ⟨nm⟩ with
              | none => .error (.keyError ⟨nm⟩)
              | some v => fmtScan env fuel (acc ++ v) rest1
    else if c == rbrace then
      match cs with
      | [] => .error .valueError
      | d :: cs2 =>
        if d == rbrace then fmtScan env fuel (acc.push c) cs2
        else .error .valueError
    else fmtScan env fuel (acc.push c) cs

/-- Python str.format-style formatting of a template against a keyword
environment. -/
def pyFormat (tmpl : String) (env : String → Option String) : Except PyErr String :=
  fmtScan env (lenSucc tmpl.data) "" tmpl.data


/-- No brace occurs in the run: such text is copied verbatim by the formatter. -/
def braceFreeB (l : List Char) : Bool :=
  l.all (fun c => !(c == lbrace) && !(c == rbrace))

/-- PROMPT_TEMPLATE from src/AI/agent.py, byte for byte: the concatenation, in
source order, of its literal chunks and the brace-delimited text of its
placeholders and EXAMPLE lines (association of the concatenation is
immaterial). exOpen is the opening brace, field name and colon of the first
EXAMPLE line, exSfx its format-spec text, and exTail its closing brace
followed by the whole remainder of the template. -/
def PROMPT_TEMPLATE : String :=
  seg0a ++ ("\x7bTemp\x7d" ++ (seg1 ++ ("\x7bHumid\x7d" ++ (seg2 ++ ("\x7bProxy\x7d" ++ (seg3a ++ (seg3b ++ (seg3c ++ (seg3d ++ (exOpen ++ (exSfx ++ exTail)))))))))))

/-- Decimal rendering of a nonnegative multiple of 1/100 as Python str() prints
the corresponding float: shortest fractional part, but always at least one
fractional digit. -/
def renderNonneg (q : ℚ) : String :=
  let c : ℤ := iFloor (q * 100)
  let ip := c / 100
  let fr := c % 100
  if fr = 0 then toString ip ++ ".0"
  else if fr % 10 = 0 then toString ip ++ "." ++ toString (fr / 10)
  else if fr < 10 then toString ip ++ ".0" ++ toString fr
  else toString ip ++ "." ++ toString fr

/-- Python str() of a float that is a multiple of 1/100 (every rounded input). -/
def renderNum (q : ℚ) : String :=
  if q < 0 then "-" ++ renderNonneg (-q) else renderNonneg q

/-- The keyword environment of the call prompt.format(Temp=temp, Humid=humid,
Proxy=proxy) in src/AI/agent.py: exactly the three sensor keywords, each bound
to the Python str() rendering of its (already rounded) value. -/
def envTHP (t h p : ℚ) : String → Option String := fun n =>
  if n = "Temp" then some (renderNum t)
  else if n = "Humid" then some (renderNum h)
  else if n = "Proxy" then some (renderNum p)
  else none

/-- prompt.format(Temp=temp, Humid=humid, Proxy=proxy) from src/AI/agent.py:
format PROMPT_TEMPLATE against the keyword environment carrying exactly Temp,
Humid and Proxy. On this template the substitution reaches the first EXAMPLE
field, whose name is the five characters text in double quotes, finds no such
keyword and raises KeyError — the formatter never returns a prompt. -/
def promptFormat (t h p : ℚ) : Except PyErr String :=
  pyFormat PROMPT_TEMPLATE (envTHP t h p)

/-- The inner try/except json.JSONDecodeError of report (src/AI/agent.py): probe
the response with json.loads, then return the response text unchanged on both
branches. -/
def validateResponse (resp : String) : String :=
  match json_loads resp with
  | .ok _ => resp
  | .error _ => resp

/-- report from src/AI/agent.py. The float() conversions, the rounding and the
prompt.format call all happen before the try block, so their exceptions
propagate uncaught; only the llm call and the json.loads probe sit inside it.
Any exception of the call would be caught and turned into the sentinel string
"Error.". On the repository's template the format call raises, so the llm is
never invoked. -/
def report (llm : String → Except PyErr String) (temp humid proxy : Jval) :
    Except PyErr String := do
  let t ← pyFloat temp
  let h ← pyFloat humid
  let p ← pyFloat proxy
  let prompt_ ← promptFormat (pyRound2 t) (pyRound2 h) (pyRound2 p)
  match llm prompt_ with
  | .error _ => pure "Error."
  | .ok resp => pure (validateResponse resp)

/-- One persisted row of the data table (src/App/model.py, class Data). The
Confid column receives whatever JSON value the handler extracted, unvalidated;
the Time column (server-side default) is not modelled. -/
structure Reading where
  id : ℕ
  Temp : ℤ
  Humid : ℤ
  Proxy : ℤ
  Resp : String
  Sugg : String
  Confid : Jval

/-- The JSON success payload of POST /data (src/app.py). -/
structure Payload where
  status : String
  id : ℕ
  Display : String
  Sugg : String
  Confid : Jval

/-- The body of the data route (src/app.py, function data) up to the Data row
construction: the three required body fields, the report call, json.loads on
its result, field extraction with .strip(), and the int() conversions used for
the row, in source order. The first exception aborts the request. -/
def pipeline (llm : String → Except PyErr String) (body : Jval) :
    Except PyErr (ℤ × ℤ × ℤ × String × String × Jval) := do
  let temp ← jsonSubscript body "Temp"
  let humid ← jsonSubscript body "Humid"
  let proxy ← jsonSubscript body "Proxy"
  let response ← report llm temp humid proxy
  let parsed_resp ← json_loads response
  let textRaw ← jsonSubscript parsed_resp "text"
  let text ← jvalStrip textRaw
  let recRaw ← jsonSubscript parsed_resp "recommendation"
  let recommendation ← jvalStrip recRaw
  let confidence ← jsonSubscript parsed_resp "confidence"
  let tI ← pyInt temp
  let hI ← pyInt humid
  let pI ← pyInt proxy
  pure (tI, hI, pI, text, recommendation, confidence)

/-- POST /data (src/app.py, function data): on success, append one fully
populated Reading carrying the next autoincrement id and return the jsonify
payload with HTTP 200; when an exception escapes, the store is unchanged (the
session add and commit are the last store actions, after every fallible step). -/
def data_handler (llm : String → Except PyErr String) (body : Jval)
    (st : List Reading) : Except PyErr Payload × List Reading :=
  match pipeline llm body with
  | .error e => (.error e, st)
  | .ok (tI, hI, pI, text, recommendation, confidence) =>
    let row : Reading :=
      { id := st.length + 1, Temp := tI, Humid := hI, Proxy := pI,
        Resp := text, Sugg := recommendation, Confid := confidence }
    (.ok { status := "ok", id := row.id, Display := text,
           Sugg := recommendation, Confid := confidence }, st ++ [row])

/-- HTTP status of the data route response: 200 on the jsonify success path,
500 when an uncaught exception reaches Flask. -/
def flaskStatus (r : Except PyErr Payload) : ℕ :=
  match r with
  | .ok _ => 200
  | .error _ => 500

/-- The descending-id order used by both queries of the index route. -/
def geId (a b : Reading) : Prop := b.id ≤ a.id

instance : DecidableRel geId := fun a b => Nat.decLe b.id a.id

instance : IsTotal Reading geId := ⟨fun a b => Nat.le_total b.id a.id⟩

instance : IsTrans Reading geId := ⟨fun _ _ _ h1 h2 => Nat.le_trans h2 h1⟩

/-- ORDER BY id DESC over the store rows (ids are unique in every reachable
store, so this order is deterministic). -/
def orderByIdDesc (st : List Reading) : List Reading :=
  List.insertionSort geId st

/-- Data.query.order_by(Data.id.desc()).first() from the index route. -/
def latestReading (st : List Reading) : Option Reading :=
  (orderByIdDesc st).head?

/-- Data.query.order_by(Data.id.desc()).limit(n).all(); the index route uses
n = 20. -/
def listRecent (n : ℕ) (st : List Reading) : List Reading :=
  (orderByIdDesc st).take n

/-- GET / (src/app.py, function index): the rendered page receives the latest
reading and the 20 most recent readings; the store is not modified. -/
def index_handler (st : List Reading) : Option Reading × List Reading :=
  (latestReading st, listRecent 20 st)

/-- An exception anywhere in the pipeline reaches Flask with the store untouched:
the session add and commit come after every fallible step. -/
theorem data_handler_error_of_pipeline (llm : String → Except PyErr String)
    (body : Jval) (st : List Reading) (e : PyErr)
    (hp : pipeline llm body = .error e) :
    data_handler llm body st = (.error e, st) := by
  simp [data_handler, hp]

/-- A successful pipeline appends exactly the row built from its results. -/
theorem data_handler_ok_of_pipeline (llm : String → Except PyErr String)
    (body : Jval) (st : List Reading)
    (tI hI pI : ℤ) (text recommendation : String) (confidence : Jval)
    (hp : pipeline llm body = .ok (tI, hI, pI, text, recommendation, confidence)) :
    data_handler llm body st =
      (.ok { status := "ok", id := st.length + 1, Display := text,
             Sugg := recommendation, Confid := confidence },
       st ++ [{ id := st.length + 1, Temp := tI, Humid := hI, Proxy := pI,
                Resp := text, Sugg := recommendation, Confid := confidence }]) := by
  simp [data_handler, hp]

/-- lenSucc distributes over append as length plus lenSucc. -/
theorem lenSucc_append (l1 l2 : List Char) :
    lenSucc (l1 ++ l2) = l1.length + lenSucc l2 := by
  induction l1 with
  | nil => simp [lenSucc]
  | cons c cs ih => simp [lenSucc, ih]; omega

theorem string_append_mk_nil (s : String) : s ++ (⟨[]⟩ : String) = s := by
  cases s with
  | mk d => show String.mk (d ++ []) = String.mk d
            rw [List.append_nil]

theorem string_push_append (acc : String) (c : Char) (l : List Char) :
    acc.push c ++ (⟨l⟩ : String) = acc ++ (⟨c :: l⟩ : String) := by
  cases acc with
  | mk d => show String.mk ((d ++ [c]) ++ l) = String.mk (d ++ (c :: l))
            rw [List.append_assoc]
            rfl

theorem fmtScan_litRun (env : String → Option String) (l1 : List Char)
    (hbf : braceFreeB l1 = true) :
    ∀ (fuel : ℕ) (acc : String) (l2 : List Char),
      fmtScan env (l1.length + fuel) acc (l1 ++ l2) =
        fmtScan env fuel (acc ++ (⟨l1⟩ : String)) l2 := by
  induction l1 with
  | nil =>
    intro fuel acc l2
    rw [string_append_mk_nil]
    simp
  | cons c cs ih =>
    intro fuel acc l2
    rw [braceFreeB, List.all_cons] at hbf
    have h1 : (c == lbrace) = false := by
      rcases Bool.and_eq_true_iff.mp hbf with ⟨h, _⟩
      rcases Bool.and_eq_true_iff.mp h with ⟨h1, _⟩
      rwa [Bool.not_eq_true'] at h1
    have h2 : (c == rbrace) = false := by
      rcases Bool.and_eq_true_iff.mp hbf with ⟨h, _⟩
      rcases Bool.and_eq_true_iff.mp h with ⟨_, h2⟩
      rwa [Bool.not_eq_true'] at h2
    have hcs : braceFreeB cs = true := (Bool.and_eq_true_iff.mp hbf).2
    have hlen : (c :: cs).length + fuel = (cs.length + fuel) + 1 := by
      simp [List.length_cons]; omega
    rw [hlen, List.cons_append]
    show fmtScan env ((cs.length + fuel) + 1) acc (c :: (cs ++ l2)) = _
    rw [show fmtScan env ((cs.length + fuel) + 1) acc (c :: (cs ++ l2)) =
        fmtScan env (cs.length + fuel) (acc.push c) (cs ++ l2) by
      simp [fmtScan, h1, h2]]
    rw [ih hcs (fuel) (acc.push c) l2, string_push_append]

theorem fmtScan_fieldFound (env : String → Option String) (fuel : ℕ) (acc : String)
    (d : Char) (cs2 nm rest : List Char) (v : String)
    (hd : (d == lbrace) = false)
    (hn : scanName (d :: cs2) = some (nm, false, rest))
    (hv : env ⟨nm⟩ = some v) :
    fmtScan env (fuel + 1) acc (lbrace :: d :: cs2) = fmtScan env fuel (acc ++ v) rest := by
  simp [fmtScan, hd, hn, hv]

theorem fmtScan_fieldMissing (env : String → Option String) (fuel : ℕ) (acc : String)
    (d : Char) (cs2 nm rest1 sfx rest2 : List Char)
    (hd : (d == lbrace) = false)
    (hn : scanName (d :: cs2) = some (nm, true, rest1))
    (hs : scanSuffix 0 rest1 = some (sfx, rest2))
    (hv : env ⟨nm⟩ = none) :
    fmtScan env (fuel + 1) acc (lbrace :: d :: cs2) = .error (.keyError ⟨nm⟩) := by
  simp [fmtScan, hd, hn, hs, hv]

theorem lenSucc_pos (l : List Char) : 1 ≤ lenSucc l := by
  cases l with
  | nil => exact le_refl 1
  | cons c cs => exact Nat.succ_le_succ (Nat.zero_le _)

theorem fmtScan_walkLit (env : String → Option String) (ch : String)
    (hbf : braceFreeB ch.data = true) (k : ℕ) (acc : String) (l2 : List Char) :
    fmtScan env (k + lenSucc (ch.data ++ l2)) acc (ch.data ++ l2) =
      fmtScan env (k + lenSucc l2) (acc ++ ch) l2 := by
  have h1 : k + lenSucc (ch.data ++ l2) = ch.data.length + (k + lenSucc l2) := by
    rw [lenSucc_append]; omega
  rw [h1]
  exact fmtScan_litRun env ch.data hbf (k + lenSucc l2) acc l2

theorem fmtScan_walkTemp (t h p : ℚ) (k : ℕ) (acc : String) (l2 : List Char) :
    fmtScan (envTHP t h p) (k + lenSucc ("\x7bTemp\x7d".data ++ l2)) acc
      ("\x7bTemp\x7d".data ++ l2) =
    fmtScan (envTHP t h p) ((k + 5) + lenSucc l2) (acc ++ renderNum t) l2 := by
  have h1 : k + lenSucc ("\x7bTemp\x7d".data ++ l2) = ((k + 5) + lenSucc l2) + 1 := by
    rw [lenSucc_append]
    have h6 : ("\x7bTemp\x7d".data).length = 6 := rfl
    omega
  rw [h1]
  show fmtScan (envTHP t h p) (((k + 5) + lenSucc l2) + 1) acc
    (lbrace :: 'T' :: ("emp\x7d".data ++ l2)) = _
  exact fmtScan_fieldFound _ _ _ _ _ _ _ _ rfl rfl rfl

theorem fmtScan_walkHumid (t h p : ℚ) (k : ℕ) (acc : String) (l2 : List Char) :
    fmtScan (envTHP t h p) (k + lenSucc ("\x7bHumid\x7d".data ++ l2)) acc
      ("\x7bHumid\x7d".data ++ l2) =
    fmtScan (envTHP t h p) ((k + 6) + lenSucc l2) (acc ++ renderNum h) l2 := by
  have h1 : k + lenSucc ("\x7bHumid\x7d".data ++ l2) = ((k + 6) + lenSucc l2) + 1 := by
    rw [lenSucc_append]
    have h7 : ("\x7bHumid\x7d".data).length = 7 := rfl
    omega
  rw [h1]
  show fmtScan (envTHP t h p) (((k + 6) + lenSucc l2) + 1) acc
    (lbrace :: 'H' :: ("umid\x7d".data ++ l2)) = _
  exact fmtScan_fieldFound _ _ _ _ _ _ _ _ rfl rfl rfl

theorem fmtScan_walkProxy (t h p : ℚ) (k : ℕ) (acc : String) (l2 : List Char) :
    fmtScan (envTHP t h p) (k + lenSucc ("\x7bProxy\x7d".data ++ l2)) acc
      ("\x7bProxy\x7d".data ++ l2) =
    fmtScan (envTHP t h p) ((k + 6) + lenSucc l2) (acc ++ renderNum p) l2 := by
  have h1 : k + lenSucc ("\x7bProxy\x7d".data ++ l2) = ((k + 6) + lenSucc l2) + 1 := by
    rw [lenSucc_append]
    have h7 : ("\x7bProxy\x7d".data).length = 7 := rfl
    omega
  rw [h1]
  show fmtScan (envTHP t h p) (((k + 6) + lenSucc l2) + 1) acc
    (lbrace :: 'P' :: ("roxy\x7d".data ++ l2)) = _
  exact fmtScan_fieldFound _ _ _ _ _ _ _ _ rfl rfl rfl

theorem fmtScan_walkErr (t h p : ℚ) (k : ℕ) (acc : String) :
    fmtScan (envTHP t h p) (k + lenSucc (exOpen.data ++ (exSfx.data ++ exTail.data))) acc
      (exOpen.data ++ (exSfx.data ++ exTail.data)) = .error (.keyError "\"text\"") := by
  have hpos := lenSucc_pos (exOpen.data ++ (exSfx.data ++ exTail.data))
  have h1 : k + lenSucc (exOpen.data ++ (exSfx.data ++ exTail.data)) =
      (k + lenSucc (exOpen.data ++ (exSfx.data ++ exTail.data)) - 1) + 1 := by omega
  rw [h1]
  show fmtScan (envTHP t h p) _ acc
    (lbrace :: '"' :: ("text\":".data ++ (exSfx.data ++ exTail.data))) = _
  exact fmtScan_fieldMissing _ _ _ _ _ _ _ _ _ rfl rfl rfl rfl

theorem promptFormat_keyError (t h p : ℚ) :
    promptFormat t h p = .error (.keyError "\"text\"") := by
  have hdata : PROMPT_TEMPLATE.data =
      seg0a.data ++ ("\x7bTemp\x7d".data ++ (seg1.data ++ ("\x7bHumid\x7d".data ++
        (seg2.data ++ ("\x7bProxy\x7d".data ++ (seg3a.data ++ (seg3b.data ++
        (seg3c.data ++ (seg3d.data ++ (exOpen.data ++ (exSfx.data ++ exTail.data))))))))))) := by
    unfold PROMPT_TEMPLATE
    simp only [String.data_append]
  unfold promptFormat pyFormat
  rw [hdata]
  rw [show lenSucc (seg0a.data ++ ("\x7bTemp\x7d".data ++ (seg1.data ++ ("\x7bHumid\x7d".data ++
        (seg2.data ++ ("\x7bProxy\x7d".data ++ (seg3a.data ++ (seg3b.data ++
        (seg3c.data ++ (seg3d.data ++ (exOpen.data ++ (exSfx.data ++ exTail.data)))))))))))) =
      0 + lenSucc (seg0a.data ++ ("\x7bTemp\x7d".data ++ (seg1.data ++ ("\x7bHumid\x7d".data ++
        (seg2.data ++ ("\x7bProxy\x7d".data ++ (seg3a.data ++ (seg3b.data ++
        (seg3c.data ++ (seg3d.data ++ (exOpen.data ++ (exSfx.data ++ exTail.data))))))))))))
    from (Nat.zero_add _).symm]
  rw [fmtScan_walkLit _ _ (by decide)]
  rw [fmtScan_walkTemp]
  rw [fmtScan_walkLit _ _ (by decide)]
  rw [fmtScan_walkHumid]
  rw [fmtScan_walkLit _ _ (by decide)]
  rw [fmtScan_walkProxy]
  rw [fmtScan_walkLit _ _ (by decide)]
  rw [fmtScan_walkLit _ _ (by decide)]
  rw [fmtScan_walkLit _ _ (by decide)]
  rw [fmtScan_walkLit _ _ (by decide)]
  exact fmtScan_walkErr t h p _ _

/-- C9: every run of the data route either leaves the store exactly as it was
(any failure) or appends exactly one fully populated row whose id is the next
autoincrement value and whose generated fields are the ones echoed in the
response; rows are never updated or deleted. -/
theorem C9_atomic_append (llm : String → Except PyErr String) (body : Jval)
    (st : List Reading) :
    (∃ e, data_handler llm body st = (.error e, st)) ∨
    (∃ pl row, data_handler llm body st = (.ok pl, st ++ [row]) ∧
       row.id = st.length + 1 ∧ pl.id = row.id ∧ pl.status = "ok" ∧
       pl.Display = row.Resp ∧ pl.Sugg = row.Sugg ∧ pl.Confid = row.Confid) := by
  cases hp : pipeline llm body with
  | error e =>
    exact Or.inl ⟨e, data_handler_error_of_pipeline llm body st e hp⟩
  | ok v =>
    obtain ⟨tI, hI, pI, text, recommendation, confidence⟩ := v
    exact Or.inr ⟨_, _,
      data_handler_ok_of_pipeline llm body st tI hI pI text recommendation confidence hp,
      rfl, rfl, rfl, rfl, rfl, rfl⟩

/-- C10: the catch-all in report does not make it total. The float() conversions
run before the try block, so an argument float() rejects makes report raise
rather than return the sentinel: the exception propagates and no string at all
is returned. -/
theorem C10_conversion_raises (llm : String → Except PyErr String)
    (temp humid proxy : Jval)
    (hbad : (∃ e, pyFloat temp = .error e) ∨
      (∃ t, pyFloat temp = .ok t ∧ ∃ e, pyFloat humid = .error e) ∨
      (∃ t h, pyFloat temp = .ok t ∧ pyFloat humid = .ok h ∧
        ∃ e, pyFloat proxy = .error e)) :
    (∃ e, report llm temp humid proxy = .error e) ∧
    ∀ s, report llm temp humid proxy ≠ .ok s := by
  have herr : ∃ e, report llm temp humid proxy = .error e := by
    rcases hbad with ⟨e, he⟩ | ⟨t, ht, e, he⟩ | ⟨t, h, ht, hh, e, he⟩
    · exact ⟨e, by simp [report, he, bind, Except.bind]⟩
    · exact ⟨e, by simp [report, ht, he, bind, Except.bind]⟩
    · exact ⟨e, by simp [report, ht, hh, he, bind, Except.bind]⟩
  obtain ⟨e, he⟩ := herr
  exact ⟨⟨e, he⟩, fun s hs => by rw [he] at hs; exact Except.noConfusion hs⟩

/-- C10 witness: float("abc") raises, so report on a non-numeric string raises
(a ValueError) even though the stubbed model would answer successfully. -/
theorem C10_conversion_raises_witness :
    pyFloat (Jval.jstr "abc") = .error .valueError ∧
    (∃ e, report (fun _ => .ok "ignored") (.jstr "abc") (.jnum 40) (.jnum 3) = .error e) ∧
    ∀ s, report (fun _ => .ok "ignored") (.jstr "abc") (.jnum 40) (.jnum 3) ≠ .ok s :=
  ⟨rfl, C10_conversion_raises (fun _ => .ok "ignored") (.jstr "abc") (.jnum 40) (.jnum 3)
    (Or.inl ⟨.valueError, rfl⟩)⟩

/-- C4 counterexample: end-to-end scenario 2, a body missing Proxy. The claim
promises a ValidationError with HTTP 400; the code raises an uncaught KeyError,
which Flask surfaces as HTTP 500, not 400 (no row is inserted). -/
theorem C4_counterexample :
    data_handler
        (fun _ => .ok "\x7b\"text\":\"Mild day.\",\"recommendation\":\"Stay hydrated.\",\"confidence\":80\x7d")
        (.jobj [("Temp", .jnum 25), ("Humid", .jnum 40)]) [] =
      (.error (.keyError "Proxy"), []) ∧
    flaskStatus (data_handler
        (fun _ => .ok "\x7b\"text\":\"Mild day.\",\"recommendation\":\"Stay hydrated.\",\"confidence\":80\x7d")
        (.jobj [("Temp", .jnum 25), ("Humid", .jnum 40)]) []).1 = 500 ∧
    flaskStatus (data_handler
        (fun _ => .ok "\x7b\"text\":\"Mild day.\",\"recommendation\":\"Stay hydrated.\",\"confidence\":80\x7d")
        (.jobj [("Temp", .jnum 25), ("Humid", .jnum 40)]) []).1 ≠ 400 :=
  ⟨rfl, rfl, by intro hc; exact absurd hc (by decide)⟩

/-- C4 amended: a body missing any of Temp, Humid, Proxy, or carrying a value
float() rejects for one of them, makes the handler raise an uncaught exception
(KeyError, TypeError or ValueError); Flask answers HTTP 500 — not the claimed
400 — and no Reading row is inserted. -/
theorem C4_amended (llm : String → Except PyErr String) (body : Jval)
    (st : List Reading)
    (hbad : (∃ e, jsonSubscript body "Temp" = .error e) ∨
       (∃ e, jsonSubscript body "Humid" = .error e) ∨
       (∃ e, jsonSubscript body "Proxy" = .error e) ∨
       (∃ v e, jsonSubscript body "Temp" = .ok v ∧ pyFloat v = .error e) ∨
       (∃ v e, jsonSubscript body "Humid" = .ok v ∧ pyFloat v = .error e) ∨
       (∃ v e, jsonSubscript body "Proxy" = .ok v ∧ pyFloat v = .error e)) :
    (∃ e, data_handler llm body st = (.error e, st)) ∧
    flaskStatus (data_handler llm body st).1 = 500 ∧
    (data_handler llm body st).2 = st := by
  have herr : ∃ e, pipeline llm body = .error e := by
    rcases hbad with ⟨e, he⟩ | ⟨e, he⟩ | ⟨e, he⟩ |
      ⟨v, e, hv, he⟩ | ⟨v, e, hv, he⟩ | ⟨v, e, hv, he⟩
    · exact ⟨e, by simp [pipeline, he, bind, Except.bind]⟩
    · cases hT : jsonSubscript body "Temp" with
      | error e1 => exact ⟨e1, by simp [pipeline, hT, bind, Except.bind]⟩
      | ok vT => exact ⟨e, by simp [pipeline, hT, he, bind, Except.bind]⟩
    · cases hT : jsonSubscript body "Temp" with
      | error e1 => exact ⟨e1, by simp [pipeline, hT, bind, Except.bind]⟩
      | ok vT =>
        cases hH : jsonSubscript body "Humid" with
        | error e2 => exact ⟨e2, by simp [pipeline, hT, hH, bind, Except.bind]⟩
        | ok vH => exact ⟨e, by simp [pipeline, hT, hH, he, bind, Except.bind]⟩
    · cases hH : jsonSubscript body "Humid" with
      | error e2 => exact ⟨e2, by simp [pipeline, hv, hH, bind, Except.bind]⟩
      | ok vH =>
        cases hP : jsonSubscript body "Proxy" with
        | error e3 => exact ⟨e3, by simp [pipeline, hv, hH, hP, bind, Except.bind]⟩
        | ok vP =>
          exact ⟨e, by simp [pipeline, report, hv, hH, hP, he, bind, Except.bind]⟩
    · cases hT : jsonSubscript body "Temp" with
      | error e1 => exact ⟨e1, by simp [pipeline, hT, bind, Except.bind]⟩
      | ok vT =>
        cases hP : jsonSubscript body "Proxy" with
        | error e3 => exact ⟨e3, by simp [pipeline, hT, hv, hP, bind, Except.bind]⟩
        | ok vP =>
          cases hfT : pyFloat vT with
          | error eT =>
            exact ⟨eT, by simp [pipeline, report, hT, hv, hP, hfT, bind, Except.bind]⟩
          | ok t =>
            exact ⟨e, by simp [pipeline, report, hT, hv, hP, hfT, he, bind, Except.bind]⟩
    · cases hT : jsonSubscript body "Temp" with
      | error e1 => exact ⟨e1, by simp [pipeline, hT, bind, Except.bind]⟩
      | ok vT =>
        cases hH : jsonSubscript body "Humid" with
        | error e2 => exact ⟨e2, by simp [pipeline, hT, hH, bind, Except.bind]⟩
        | ok vH =>
          cases hfT : pyFloat vT with
          | error eT =>
            exact ⟨eT, by simp [pipeline, report, hT, hH, hv, hfT, bind, Except.bind]⟩
          | ok t =>
            cases hfH : pyFloat vH with
            | error eH =>
              exact ⟨eH, by simp [pipeline, report, hT, hH, hv, hfT, hfH, bind, Except.bind]⟩
            | ok h2 =>
              exact ⟨e, by simp [pipeline, report, hT, hH, hv, hfT, hfH, he, bind, Except.bind]⟩
  obtain ⟨e, he⟩ := herr
  have hrun := data_handler_error_of_pipeline llm body st e he
  exact ⟨⟨e, hrun⟩, by rw [hrun]; rfl, by rw [hrun]⟩

/-- C4 amended witness: a body whose Temp is the non-numeric string "abc" (and
a separate discharge for a missing-Proxy body is covered by the
counterexample): HTTP 500 and an unchanged store. -/
theorem C4_amended_witness :
    jsonSubscript (Jval.jobj [("Temp", .jstr "abc"), ("Humid", .jnum 40), ("Proxy", .jnum 3)])
        "Temp" = .ok (.jstr "abc") ∧
    pyFloat (.jstr "abc") = .error .valueError ∧
    (∃ e, data_handler (fun _ => .ok "ignored")
        (.jobj [("Temp", .jstr "abc"), ("Humid", .jnum 40), ("Proxy", .jnum 3)]) [] =
      (.error e, [])) ∧
    flaskStatus (data_handler (fun _ => .ok "ignored")
        (.jobj [("Temp", .jstr "abc"), ("Humid", .jnum 40), ("Proxy", .jnum 3)]) []).1 = 500 ∧
    (data_handler (fun _ => .ok "ignored")
        (.jobj [("Temp", .jstr "abc"), ("Humid", .jnum 40), ("Proxy", .jnum 3)]) []).2 = [] :=
  ⟨rfl, rfl,
    (C4_amended (fun _ => .ok "ignored")
      (.jobj [("Temp", .jstr "abc"), ("Humid", .jnum 40), ("Proxy", .jnum 3)]) []
      (Or.inr (Or.inr (Or.inr (Or.inl ⟨.jstr "abc", .valueError, rfl, rfl⟩))))).1,
    (C4_amended (fun _ => .ok "ignored")
      (.jobj [("Temp", .jstr "abc"), ("Humid", .jnum 40), ("Proxy", .jnum 3)]) []
      (Or.inr (Or.inr (Or.inr (Or.inl ⟨.jstr "abc", .valueError, rfl, rfl⟩))))).2.1,
    (C4_amended (fun _ => .ok "ignored")
      (.jobj [("Temp", .jstr "abc"), ("Humid", .jnum 40), ("Proxy", .jnum 3)]) []
      (Or.inr (Or.inr (Or.inr (Or.inl ⟨.jstr "abc", .valueError, rfl, rfl⟩))))).2.2⟩

/-- iFloor agrees with the mathematical floor on ℚ. -/
theorem iFloor_eq (q : ℚ) : iFloor q = ⌊q⌋ := Rat.floor_def.symm

/-- Half-to-even rounding lands within one half of its argument. -/
theorem rndHalfEven_close (x : ℚ) : |((rndHalfEven x : ℤ) : ℚ) - x| ≤ 1 / 2 := by
  have hfl : ((iFloor x : ℤ) : ℚ) ≤ x := by rw [iFloor_eq]; exact Int.floor_le x
  have hfu : x < ((iFloor x : ℤ) : ℚ) + 1 := by rw [iFloor_eq]; exact Int.lt_floor_add_one x
  unfold rndHalfEven
  split_ifs with h1 h2 h3
  · rw [abs_le]; constructor <;> linarith
  · push_cast
    rw [abs_le]; constructor <;> linarith
  · rw [abs_le]; constructor <;> linarith
  · push_cast
    rw [abs_le]; constructor <;> linarith

/-- round(q, 2) is an exact multiple of 1/100. -/
theorem pyRound2_den (q : ℚ) : (pyRound2 q * 100).den = 1 := by
  unfold pyRound2
  rw [div_mul_cancel₀ _ (by norm_num : (100 : ℚ) ≠ 0)]
  exact Rat.den_intCast _

/-- round(q, 2) is within 1/100 of q. -/
theorem pyRound2_close (q : ℚ) : |pyRound2 q - q| ≤ 1 / 100 := by
  have h := rndHalfEven_close (q * 100)
  rw [abs_le] at h
  unfold pyRound2
  rw [abs_le]
  constructor <;> [linarith; linarith]

/-- C5: with pairwise-distinct row ids (true of every reachable store),
listRecent 20 returns at most 20 readings in strictly descending id order;
latestReading returns none exactly on a never-written (empty) store, and on
every nonempty store it returns some stored reading whose id is maximal. -/
theorem C5_recent_queries (st : List Reading)
    (hids : (st.map Reading.id).Nodup) :
    (listRecent 20 st).length ≤ 20 ∧
    List.Sorted (fun a b : Reading => b.id < a.id) (listRecent 20 st) ∧
    (st = [] → latestReading st = none) ∧
    (st ≠ [] → ∃ r, latestReading st = some r ∧ r ∈ st ∧ ∀ x ∈ st, x.id ≤ r.id) := by
  have hperm : (orderByIdDesc st).Perm st := List.perm_insertionSort geId st
  have hsorted : List.Sorted geId (orderByIdDesc st) := List.sorted_insertionSort geId st
  have hnodup : ((orderByIdDesc st).map Reading.id).Nodup :=
    ((hperm.map Reading.id).symm).nodup hids
  have hpne : List.Pairwise (fun a b : Reading => a.id ≠ b.id) (orderByIdDesc st) :=
    List.pairwise_map.mp hnodup
  have hstrict : List.Pairwise (fun a b : Reading => b.id < a.id) (orderByIdDesc st) :=
    (hsorted.and hpne).imp fun hab => lt_of_le_of_ne hab.1 hab.2.symm
  refine ⟨List.length_take_le 20 _, ?_, ?_, ?_⟩
  · exact List.Pairwise.sublist (List.take_sublist 20 _) hstrict
  · intro hempty
    subst hempty
    rfl
  · intro hne
    cases hsort : orderByIdDesc st with
    | nil =>
      exfalso
      apply hne
      have hp : List.Perm [] st := by rw [hsort] at hperm; exact hperm
      exact (hp.symm).eq_nil
    | cons a tl =>
      have hs2 : List.Sorted geId (a :: tl) := by rw [hsort] at hsorted; exact hsorted
      refine ⟨a, ?_, ?_, ?_⟩
      · rw [latestReading, hsort]
        rfl
      · exact hperm.subset (by rw [hsort]; exact List.mem_cons_self a tl)
      · intro x hx
        have hx2 : x ∈ a :: tl := by
          have hmem := hperm.symm.subset hx
          rw [hsort] at hmem
          exact hmem
        rcases List.mem_cons.mp hx2 with h1 | h2
        · subst h1; exact le_refl _
        · exact List.rel_of_sorted_cons hs2 x h2

/-- A concrete three-row store, inserted in id order 1, 2, 3, used to exercise
the index-route queries. -/
def sampleStore : List Reading :=
  [{ id := 1, Temp := 20, Humid := 30, Proxy := 1, Resp := "x", Sugg := "y",
     Confid := Jval.jnum 1 },
   { id := 2, Temp := 21, Humid := 31, Proxy := 2, Resp := "u", Sugg := "v",
     Confid := Jval.jnum 2 },
   { id := 3, Temp := 22, Humid := 32, Proxy := 3, Resp := "s", Sugg := "t",
     Confid := Jval.jnum 3 }]

/-- C5 witness: the three-row sample store has distinct ids, a latest reading
(the id-3 row, checked concretely), and satisfies the query contracts. -/
theorem C5_recent_queries_witness :
    (sampleStore.map Reading.id).Nodup ∧
    sampleStore ≠ [] ∧
    latestReading sampleStore =
      some { id := 3, Temp := 22, Humid := 32, Proxy := 3, Resp := "s", Sugg := "t",
             Confid := Jval.jnum 3 } ∧
    ((listRecent 20 sampleStore).length ≤ 20 ∧
     List.Sorted (fun a b : Reading => b.id < a.id) (listRecent 20 sampleStore) ∧
     (sampleStore = [] → latestReading sampleStore = none) ∧
     (sampleStore ≠ [] → ∃ r, latestReading sampleStore = some r ∧
        r ∈ sampleStore ∧ ∀ x ∈ sampleStore, x.id ≤ r.id)) :=
  ⟨by decide, by simp [sampleStore], rfl, C5_recent_queries sampleStore (by decide)⟩

/-- Once the three float() conversions succeed, report dies in prompt.format:
the KeyError for the first EXAMPLE field propagates out of report before the
try block, whatever the model would have answered. -/
theorem report_format_raises (llm : String → Except PyErr String)
    (temp humid proxy : Jval) (t h p : ℚ)
    (hT : pyFloat temp = .ok t) (hH : pyFloat humid = .ok h)
    (hP : pyFloat proxy = .ok p) :
    report llm temp humid proxy = .error (.keyError "\"text\"") := by
  simp [report, hT, hH, hP, promptFormat_keyError, bind, Except.bind]

/-- A structurally valid body (numeric Temp, Humid, Proxy) drives the data
route into the prompt.format KeyError: the pipeline fails there on every such
request, regardless of the model. -/
theorem pipeline_format_raises (llm : String → Except PyErr String) (body : Jval)
    (t h p : ℚ)
    (hT : jsonSubscript body "Temp" = .ok (.jnum t))
    (hH : jsonSubscript body "Humid" = .ok (.jnum h))
    (hP : jsonSubscript body "Proxy" = .ok (.jnum p)) :
    pipeline llm body = .error (.keyError "\"text\"") := by
  have hrep := report_format_raises llm (.jnum t) (.jnum h) (.jnum p) t h p rfl rfl rfl
  simp [pipeline, hT, hH, hP, hrep, bind, Except.bind]

/-- C1: the claim fails against the code. On end-to-end scenario 1 — body
Temp 25, Humid 40, Proxy 3 and a stubbed model that would answer the Mild-day
JSON — the handler raises an uncaught KeyError inside prompt.format (the
EXAMPLE lines of PROMPT_TEMPLATE contain unescaped braces, which format parses
as replacement fields) before the model is consulted; Flask answers HTTP 500,
not 200, and no Reading row is inserted. -/
theorem C1_format_bug_500 :
    data_handler
        (fun _ => .ok "\x7b\"text\":\"Mild day.\",\"recommendation\":\"Stay hydrated.\",\"confidence\":80\x7d")
        (.jobj [("Temp", .jnum 25), ("Humid", .jnum 40), ("Proxy", .jnum 3)]) [] =
      (.error (.keyError "\"text\""), []) ∧
    flaskStatus (data_handler
        (fun _ => .ok "\x7b\"text\":\"Mild day.\",\"recommendation\":\"Stay hydrated.\",\"confidence\":80\x7d")
        (.jobj [("Temp", .jnum 25), ("Humid", .jnum 40), ("Proxy", .jnum 3)]) []).1 = 500 ∧
    flaskStatus (data_handler
        (fun _ => .ok "\x7b\"text\":\"Mild day.\",\"recommendation\":\"Stay hydrated.\",\"confidence\":80\x7d")
        (.jobj [("Temp", .jnum 25), ("Humid", .jnum 40), ("Proxy", .jnum 3)]) []).1 ≠ 200 := by
  have hpipe := pipeline_format_raises
    (fun _ => .ok "\x7b\"text\":\"Mild day.\",\"recommendation\":\"Stay hydrated.\",\"confidence\":80\x7d")
    (.jobj [("Temp", .jnum 25), ("Humid", .jnum 40), ("Proxy", .jnum 3)])
    25 40 3 rfl rfl rfl
  have hrun := data_handler_error_of_pipeline _ _ [] _ hpipe
  refine ⟨hrun, by rw [hrun]; rfl, by rw [hrun]; decide⟩

/-- C2: the claim fails against the code. The sentinel conversion inside the
try block is dead: for any input triple that passes the float() conversions,
report raises the prompt.format KeyError before the try block is entered, so
it never returns "Error." — nor any string — whatever exception the model
call would have raised. -/
theorem C2_sentinel_unreachable (llm : String → Except PyErr String)
    (temp humid proxy : Jval) (t h p : ℚ)
    (hT : pyFloat temp = .ok t) (hH : pyFloat humid = .ok h)
    (hP : pyFloat proxy = .ok p) :
    report llm temp humid proxy = .error (.keyError "\"text\"") ∧
    ∀ s, report llm temp humid proxy ≠ .ok s := by
  have hr := report_format_raises llm temp humid proxy t h p hT hH hP
  exact ⟨hr, fun s hs => by rw [hr] at hs; exact Except.noConfusion hs⟩

/-- C2 witness: with a model stub that raises, report on 25/40/3 still does not
return the sentinel: it raises the format KeyError first. -/
theorem C2_sentinel_unreachable_witness :
    pyFloat (Jval.jnum 25) = .ok 25 ∧
    (report (fun _ => .error .exception) (.jnum 25) (.jnum 40) (.jnum 3) =
      .error (.keyError "\"text\"") ∧
     ∀ s, report (fun _ => .error .exception) (.jnum 25) (.jnum 40) (.jnum 3) ≠ .ok s) :=
  ⟨rfl, C2_sentinel_unreachable (fun _ => .error .exception)
    (.jnum 25) (.jnum 40) (.jnum 3) 25 40 3 rfl rfl rfl⟩

/-- C3: the claim fails against the code (a latent defect even though the
enclosing call path is itself dead). The response-validation step is the
identity on every string: "hello" is not valid JSON, yet the validator hands
it back unchanged, indistinguishable from a parsed success — both branches of
the inner try/except json.JSONDecodeError return the response as is, so no
explicit unparsed outcome exists anywhere in the code. -/
theorem C3_validator_identity :
    (∃ e, json_loads "hello" = .error e) ∧
    validateResponse "hello" = "hello" ∧
    (∀ s : String, validateResponse s = s) :=
  ⟨⟨.jsonDecodeError, rfl⟩, rfl, fun s => by
    unfold validateResponse
    cases json_loads s <;> rfl⟩

/-- C6: the claim fails against the code. The Prompt Formatter has no output:
for every rounded input triple, prompt.format raises KeyError on the first
EXAMPLE field of PROMPT_TEMPLATE (its braces are unescaped, so format treats
the example JSON as a replacement field named by the quoted word text) and
never returns a prompt string. The rounding that precedes the call is indeed
to two decimal places: every rounded value is an exact hundredth within 1/100
of its input. -/
theorem C6_format_raises (t h p : ℚ) :
    promptFormat (pyRound2 t) (pyRound2 h) (pyRound2 p) = .error (.keyError "\"text\"") ∧
    (∀ s, promptFormat (pyRound2 t) (pyRound2 h) (pyRound2 p) ≠ .ok s) ∧
    (∀ q : ℚ, (pyRound2 q * 100).den = 1 ∧ |pyRound2 q - q| ≤ 1 / 100) := by
  have hr := promptFormat_keyError (pyRound2 t) (pyRound2 h) (pyRound2 p)
  exact ⟨hr, fun s hs => by rw [hr] at hs; exact Except.noConfusion hs,
    fun q => ⟨pyRound2_den q, pyRound2_close q⟩⟩

/-- C7: the claim fails against the code. No model response is ever processed:
on the body 25/40/3 with a stub that would answer confidence "90", the handler
raises the prompt.format KeyError before the response-handling lines run, so
the route returns 500 with no payload at all — the confidence extraction
(which, as written, would take the value verbatim with no coercion or
clamping) is dead code. -/
theorem C7_dead_success_path :
    data_handler
        (fun _ => .ok "\x7b\"text\":\" a \",\"recommendation\":\"b\",\"confidence\":\"90\"\x7d")
        (.jobj [("Temp", .jnum 25), ("Humid", .jnum 40), ("Proxy", .jnum 3)]) [] =
      (.error (.keyError "\"text\""), []) ∧
    ∀ pl : Payload, (data_handler
        (fun _ => .ok "\x7b\"text\":\" a \",\"recommendation\":\"b\",\"confidence\":\"90\"\x7d")
        (.jobj [("Temp", .jnum 25), ("Humid", .jnum 40), ("Proxy", .jnum 3)]) []).1 ≠ .ok pl := by
  have hpipe := pipeline_format_raises
    (fun _ => .ok "\x7b\"text\":\" a \",\"recommendation\":\"b\",\"confidence\":\"90\"\x7d")
    (.jobj [("Temp", .jnum 25), ("Humid", .jnum 40), ("Proxy", .jnum 3)])
    25 40 3 rfl rfl rfl
  have hrun := data_handler_error_of_pipeline _ _ [] _ hpipe
  refine ⟨hrun, fun pl hpl => ?_⟩
  rw [hrun] at hpl
  exact Except.noConfusion hpl

/-- C8: the claim fails against the code. No request is ever accepted: on a
body with fractional Temp 25.7 (the rational Rat.mk' 257 10) and Humid -25.7,
the handler raises the prompt.format KeyError and stores nothing. The int()
conversion the dead row-building code would apply is truncation toward zero
(25.7 to 25, -25.7 to -25), but no row ever receives it. -/
theorem C8_no_insert_ever :
    (data_handler
        (fun _ => .ok "\x7b\"text\":\"a\",\"recommendation\":\"b\",\"confidence\":1\x7d")
        (.jobj [("Temp", .jnum (Rat.mk' 257 10)), ("Humid", .jnum (Rat.mk' (-257) 10)),
          ("Proxy", .jnum 3)]) []).2 = [] ∧
    (data_handler
        (fun _ => .ok "\x7b\"text\":\"a\",\"recommendation\":\"b\",\"confidence\":1\x7d")
        (.jobj [("Temp", .jnum (Rat.mk' 257 10)), ("Humid", .jnum (Rat.mk' (-257) 10)),
          ("Proxy", .jnum 3)]) []).1 = .error (.keyError "\"text\"") ∧
    pyTrunc (Rat.mk' 257 10) = 25 ∧ pyTrunc (Rat.mk' (-257) 10) = -25 := by
  have hpipe := pipeline_format_raises
    (fun _ => .ok "\x7b\"text\":\"a\",\"recommendation\":\"b\",\"confidence\":1\x7d")
    (.jobj [("Temp", .jnum (Rat.mk' 257 10)), ("Humid", .jnum (Rat.mk' (-257) 10)),
      ("Proxy", .jnum 3)])
    (Rat.mk' 257 10) (Rat.mk' (-257) 10) 3 rfl rfl rfl
  have hrun := data_handler_error_of_pipeline _ _ [] _ hpipe
  refine ⟨by rw [hrun], by rw [hrun], by decide, by decide⟩
